import Mathlib

/-!
Shallow embedding of the authentication core of the Ican-backend repository:
the JWT helpers in `src/middleware/auth.js`, the auth routes in
`src/routes/auth.js`, the change-password route in `src/routes/user.js`,
and the authentication-relevant slice of the `User` mongoose model
(password hashing hook, lockout methods, refresh-token cleaning).

Times are naturals, in milliseconds since the epoch (`Date.now()`).
Signed JWTs are modelled as records carrying the payload claims, the
secret they were signed with and their absolute expiry; string equality
on serialized tokens corresponds to equality of these records, since
signing is deterministic in the payload and the secret.  The bcrypt
hasher is an abstract parameter `hash : String → String`; stored hashes
are compared via `hash candidate == stored`.
-/

namespace Ican

/-- The two signing secrets of the deployment: `process.env.JWT_SECRET`
and `process.env.JWT_REFRESH_SECRET`. -/
inductive Secret
  | jwtSecret
  | jwtRefreshSecret
  deriving DecidableEq, Repr

/-- A signed JWT: payload claims (`userId`, `type`, the password-reset
`timestamp`), the secret it was signed with, and its absolute expiry
time (issue time + `expiresIn`). -/
structure Jwt where
  secret : Secret
  userId : Option Nat
  type : Option String
  timestamp : Option Nat
  exp : Nat
  deriving DecidableEq, Repr

/-- Errors raised by token verification: `JsonWebTokenError` (bad
signature), `TokenExpiredError`, and the hand-rolled
`Error('Invalid token type')` of the kind-checking verifiers. -/
inductive TokenErr
  | badSignature
  | expired
  | badType
  deriving DecidableEq, Repr

/-- `jwt.verify(token, secret)`: succeeds with the decoded payload iff
the token was signed with `secret` and is unexpired. -/
def jwtVerify (now : Nat) (secret : Secret) (t : Jwt) : Except TokenErr Jwt :=
  if t.secret ≠ secret then .error .badSignature
  else if t.exp ≤ now then .error .expired
  else .ok t

/-- Whether an `Except` result from a verifier is an error. -/
def verifyFailed : Except TokenErr Jwt → Bool
  | .error _ => true
  | .ok _ => false

def oneHourMs : Nat := 60 * 60 * 1000
def twoHoursMs : Nat := 2 * 60 * 60 * 1000
def oneDayMs : Nat := 24 * 60 * 60 * 1000
def sevenDaysMs : Nat := 7 * 24 * 60 * 60 * 1000

/-- `generateToken(userId)`: access token, `JWT_SECRET`, 24h lifetime,
claims `{ userId }`. -/
def generateToken (userId : Nat) (now : Nat) : Jwt :=
  { secret := .jwtSecret, userId := some userId, type := none,
    timestamp := none, exp := now + oneDayMs }

/-- `generateRefreshToken(userId)`: `JWT_REFRESH_SECRET`, 7d lifetime,
claims `{ userId, type: 'refresh' }`. -/
def generateRefreshToken (userId : Nat) (now : Nat) : Jwt :=
  { secret := .jwtRefreshSecret, userId := some userId, type := some "refresh",
    timestamp := none, exp := now + sevenDaysMs }

/-- `generatePasswordResetToken()`: `JWT_SECRET`, 1h lifetime, claims
`{ type: 'password-reset', timestamp: Date.now() }` — no `userId`. -/
def generatePasswordResetToken (now : Nat) : Jwt :=
  { secret := .jwtSecret, userId := none, type := some "password-reset",
    timestamp := some now, exp := now + oneHourMs }

/-- `generateEmailVerificationToken(userId)`: `JWT_SECRET`, 24h lifetime,
claims `{ userId, type: 'email-verification' }`. -/
def generateEmailVerificationToken (userId : Nat) (now : Nat) : Jwt :=
  { secret := .jwtSecret, userId := some userId, type := some "email-verification",
    timestamp := none, exp := now + oneDayMs }

/-- `verifyRefreshToken(token)`: verify with `JWT_REFRESH_SECRET`, then
throw unless `decoded.type === 'refresh'`. -/
def verifyRefreshToken (now : Nat) (t : Jwt) : Except TokenErr Jwt :=
  match jwtVerify now .jwtRefreshSecret t with
  | .error e => .error e
  | .ok d => if d.type = some "refresh" then .ok d else .error .badType

/-- `verifyPasswordResetToken(token)`: verify with `JWT_SECRET`, then
throw unless `decoded.type === 'password-reset'`. -/
def verifyPasswordResetToken (now : Nat) (t : Jwt) : Except TokenErr Jwt :=
  match jwtVerify now .jwtSecret t with
  | .error e => .error e
  | .ok d => if d.type = some "password-reset" then .ok d else .error .badType

/-- `verifyEmailVerificationToken(token)`: verify with `JWT_SECRET`, then
throw unless `decoded.type === 'email-verification'`. -/
def verifyEmailVerificationToken (now : Nat) (t : Jwt) : Except TokenErr Jwt :=
  match jwtVerify now .jwtSecret t with
  | .error e => .error e
  | .ok d => if d.type = some "email-verification" then .ok d else .error .badType

/-- One entry of the `refreshTokens` array of the user schema:
`{ token, createdAt, expiresAt }`. -/
structure RefreshEntry where
  token : Jwt
  createdAt : Nat
  expiresAt : Nat
  deriving DecidableEq, Repr

/-- The authentication-relevant slice of the `User` mongoose document
(`userSchema` in the model file). `password` holds the stored bcrypt
hash after save; `lockUntil` is absent or a timestamp. -/
structure User where
  id : Nat
  email : String
  password : String
  isActive : Bool
  loginAttempts : Nat
  lockUntil : Option Nat
  refreshTokens : List RefreshEntry
  passwordResetToken : Option Jwt
  passwordResetExpires : Option Nat
  lastLogin : Option Nat
  membershipId : Option String
  deriving DecidableEq, Repr

/-- The `isLocked` virtual: `!!(this.lockUntil && this.lockUntil > Date.now())`. -/
def isLocked (u : User) (now : Nat) : Bool :=
  match u.lockUntil with
  | some l => now < l
  | none => false

/-- Whether a previous lock has expired: `this.lockUntil && this.lockUntil < Date.now()`. -/
def lockExpired (u : User) (now : Nat) : Bool :=
  match u.lockUntil with
  | some l => l < now
  | none => false

/-- `comparePassword(candidate)`: `false` when no hash is stored,
otherwise `bcrypt.compare(candidate, this.password)`, modelled as
`hash candidate == this.password` for the abstract hasher. -/
def comparePassword (hash : String → String) (candidate : String) (u : User) : Bool :=
  if u.password = "" then false else hash candidate == u.password

/-- `incLoginAttempts()`: if a previous lock has expired, restart the
counter at 1 and clear the lock; otherwise increment the counter and,
when it reaches 5 and the account is not already locked, set
`lockUntil = Date.now() + 2h`. -/
def incLoginAttempts (u : User) (now : Nat) : User :=
  if lockExpired u now then
    { u with lockUntil := none, loginAttempts := 1 }
  else
    let u' := { u with loginAttempts := u.loginAttempts + 1 }
    if 5 ≤ u.loginAttempts + 1 ∧ isLocked u now = false then
      { u' with lockUntil := some (now + twoHoursMs) }
    else u'

/-- `resetLoginAttempts()`: `$unset` both `loginAttempts` and `lockUntil`
(reading an unset counter yields the schema default 0). -/
def resetLoginAttempts (u : User) : User :=
  { u with loginAttempts := 0, lockUntil := none }

/-- `cleanExpiredTokens()`: keep only refresh-token entries with
`expiresAt > new Date()`. -/
def cleanExpiredTokens (u : User) (now : Nat) : User :=
  { u with refreshTokens := u.refreshTokens.filter (fun e => now < e.expiresAt) }

/-- `user.save()` with the two pre-save hooks: hash the password when
(and only when) the password path is modified, and generate a membership
id for a new document that has none.  `genId` stands for the
pseudo-random `ICAN/YYYY/XXXXX` string. -/
def saveUser (hash : String → String) (genId : String) (u : User)
    (passwordModified isNew : Bool) : User :=
  let u₁ := if passwordModified then { u with password := hash u.password } else u
  if u₁.membershipId = none ∧ isNew = true then { u₁ with membershipId := some genId }
  else u₁

/-! ## Credential store and route handlers

The store is the collection of persisted `User` documents.  Each
handler is a pure function from the store (plus request inputs and the
current time) to an HTTP response and the updated store. -/

/-- An HTTP response: status code and the `message` field of the JSON
envelope. -/
structure Resp where
  status : Nat
  message : String
  deriving DecidableEq, Repr

/-- `User.findById(id)`: `findById(undefined)` (a payload with no
`userId` claim) matches nothing. -/
def findById (store : List User) : Option Nat → Option User
  | none => none
  | some i => store.find? (fun u => u.id == i)

/-- `User.findOne({ email })`. -/
def findOneEmail (store : List User) (email : String) : Option User :=
  store.find? (fun u => u.email == email)

/-- `User.findOne({ 'refreshTokens.token': token })` (logout's lookup). -/
def findByRefreshToken (store : List User) (t : Jwt) : Option User :=
  store.find? (fun u => u.refreshTokens.any (fun e => e.token == t))

/-- `User.findOne({ passwordResetToken: token, passwordResetExpires: { $gt: Date.now() } })`. -/
def findResetUser (store : List User) (t : Jwt) (now : Nat) : Option User :=
  store.find? (fun u =>
    u.passwordResetToken == some t &&
    match u.passwordResetExpires with
    | some e => now < e
    | none => false)

/-- Persisting a modified document: every stored document with the same
`_id` is replaced by the new version. -/
def updateStore (store : List User) (u : User) : List User :=
  store.map (fun v => if v.id == u.id then u else v)

/-- The response shape of `authenticateToken`: either the resolved user
attached to `req.user` (fetched with `.select('-password')`), or an
error response. -/
inductive GateResult
  | ok (user : User)
  | err (status : Nat) (message : String)
  deriving DecidableEq, Repr

/-- Whether the Request Gate rejected the request. -/
def GateResult.isErr : GateResult → Bool
  | .ok _ => false
  | .err _ _ => true

/-- `.select('-password')`: the attached user carries no password hash. -/
def stripPassword (u : User) : User :=
  { u with password := "" }

/-- The Request Gate `authenticateToken(req, res, next)`: extract the
bearer token, `jwt.verify` it against `JWT_SECRET` (no kind check), load
the user by `decoded.userId`, and reject missing, inactive or locked
accounts. -/
def authenticateToken (store : List User) (token : Option Jwt) (now : Nat) : GateResult :=
  match token with
  | none => .err 401 "Access token required"
  | some t =>
    match jwtVerify now .jwtSecret t with
    | .error .badSignature => .err 401 "Invalid token"
    | .error .expired => .err 401 "Token expired"
    | .error .badType => .err 401 "Invalid token"
    | .ok decoded =>
      match findById store decoded.userId with
      | none => .err 401 "User not found"
      | some u =>
        if u.isActive = false then .err 401 "Account is deactivated"
        else if isLocked u now then .err 401 "Account is temporarily locked"
        else .ok (stripPassword u)

/-- The `data` object of a successful login/register response. -/
structure LoginData where
  user : User
  token : Jwt
  refreshToken : Jwt
  deriving DecidableEq, Repr

/-- Outcome of the login handler: response, optional data, updated store. -/
structure LoginResult where
  resp : Resp
  data : Option LoginData
  store : List User
  deriving DecidableEq, Repr

/-- `delete userResponse.password; delete userResponse.refreshTokens;
delete userResponse.loginAttempts; delete userResponse.lockUntil` on the
login response body. -/
def sanitizeUser (u : User) : User :=
  { u with password := "", refreshTokens := [], loginAttempts := 0, lockUntil := none }

/-- The `POST /login` handler: find by email, reject unknown email with
generic invalid-credentials, then locked (423), then inactive, then
verify the password — on mismatch record a failed attempt and return the
same generic error; on match reset the lockout state, set `lastLogin`,
prune expired refresh tokens, append a fresh 7-day refresh token and
return both tokens. -/
def login (hash : String → String) (store : List User) (email pw : String)
    (now : Nat) : LoginResult :=
  match findOneEmail store email with
  | none => ⟨⟨401, "Invalid credentials"⟩, none, store⟩
  | some u =>
    if isLocked u now then
      ⟨⟨423, "Account is temporarily locked due to too many failed login attempts"⟩,
        none, store⟩
    else if u.isActive = false then
      ⟨⟨401, "Account is deactivated"⟩, none, store⟩
    else if comparePassword hash pw u = false then
      ⟨⟨401, "Invalid credentials"⟩, none, updateStore store (incLoginAttempts u now)⟩
    else
      let u₁ := if 0 < u.loginAttempts then resetLoginAttempts u else u
      let u₂ := cleanExpiredTokens { u₁ with lastLogin := some now } now
      let rt := generateRefreshToken u.id now
      let u₃ := { u₂ with refreshTokens :=
        u₂.refreshTokens ++ [⟨rt, now, now + sevenDaysMs⟩] }
      ⟨⟨200, "Login successful"⟩,
        some ⟨sanitizeUser u₃, generateToken u.id now, rt⟩,
        updateStore store u₃⟩

/-- Modelled from the spec: the global error-handling middleware
(`src/middleware/errorHandler.js`, not present under `src/`) maps
`TokenInvalid`, `TokenExpired` and `TokenKindMismatch` thrown out of a
handler to HTTP 401 (§7 of the design). -/
def tokenErrResp : TokenErr → Resp
  | .badSignature => ⟨401, "Invalid token"⟩
  | .expired => ⟨401, "Token expired"⟩
  | .badType => ⟨401, "Invalid token"⟩

/-- The `POST /refresh` handler: 400 when no token is supplied,
propagate verification errors, 404 when the subject account is gone, 401
when the exact token value is not in the account's set, 401 when the
account is inactive; on success issue a new access token only (the store
is never written). -/
def refresh (store : List User) (refreshToken : Option Jwt) (now : Nat) :
    Resp × Option Jwt :=
  match refreshToken with
  | none => (⟨400, "Refresh token is required"⟩, none)
  | some t =>
    match verifyRefreshToken now t with
    | .error e => (tokenErrResp e, none)
    | .ok decoded =>
      match findById store decoded.userId with
      | none => (⟨404, "User not found"⟩, none)
      | some u =>
        if (u.refreshTokens.any (fun e => e.token == t)) = false then
          (⟨401, "Invalid refresh token"⟩, none)
        else if u.isActive = false then
          (⟨401, "Account is deactivated"⟩, none)
        else
          (⟨200, "Token refreshed successfully"⟩, some (generateToken u.id now))

/-- The `POST /logout` handler: if a refresh token is supplied and some
account's set contains it, remove that exact entry; always report
success. -/
def logout (store : List User) (refreshToken : Option Jwt) : Resp × List User :=
  match refreshToken with
  | none => (⟨200, "Logged out successfully"⟩, store)
  | some t =>
    match findByRefreshToken store t with
    | none => (⟨200, "Logged out successfully"⟩, store)
    | some u =>
      let u' := { u with refreshTokens :=
        u.refreshTokens.filter (fun e => ¬(e.token == t)) }
      (⟨200, "Logged out successfully"⟩, updateStore store u')

/-- The `POST /forgot-password` response body: status, message, and the
`resetToken` field that is spread into the body in development mode. -/
structure ForgotResp where
  status : Nat
  message : String
  resetToken : Option Jwt
  deriving DecidableEq, Repr

/-- The `POST /forgot-password` handler: when no account matches, answer
with a conditional message; when one does, store a fresh reset token
with a 1-hour expiry and answer with a different message (plus, in
development, the token itself). -/
def forgotPassword (store : List User) (email : String) (now : Nat)
    (devMode : Bool) : ForgotResp × List User :=
  match findOneEmail store email with
  | none =>
    (⟨200, "If an account with that email exists, a password reset link has been sent",
      none⟩, store)
  | some u =>
    let t := generatePasswordResetToken now
    let u' := { u with passwordResetToken := some t,
                       passwordResetExpires := some (now + oneHourMs) }
    (⟨200, "Password reset instructions sent to your email",
      if devMode then some t else none⟩, updateStore store u')

/-- The `POST /reset-password` handler: 400 unless the token verifies as
a password-reset-kind JWT and some account stores exactly that token
with an unexpired `passwordResetExpires`; on success replace the
password (rehashed on save), clear the reset token and its expiry, and
clear the whole refresh-token set. -/
def resetPassword (hash : String → String) (store : List User) (t : Jwt)
    (newPassword : String) (now : Nat) : Resp × List User :=
  if verifyFailed (verifyPasswordResetToken now t) then
    (⟨400, "Invalid or expired reset token"⟩, store)
  else
    match findResetUser store t now with
    | none => (⟨400, "Invalid or expired reset token"⟩, store)
    | some u =>
      let u₀ : User :=
        { u with password := newPassword, passwordResetToken := none,
                 passwordResetExpires := none, refreshTokens := [] }
      let u' := saveUser hash "" u₀ true false
      (⟨200, "Password reset successfully"⟩, updateStore store u')

/-- The `POST /change-password` handler (authenticated; `userId` is the
identity the Request Gate attached): 400 when the current password does
not verify or when the new password equals the current one; on success
replace the password (rehashed on save) and clear the whole
refresh-token set. -/
def changePassword (hash : String → String) (store : List User) (userId : Nat)
    (currentPassword newPassword : String) : Resp × List User :=
  match findById store (some userId) with
  | none => (⟨404, "User not found"⟩, store)
  | some u =>
    if comparePassword hash currentPassword u = false then
      (⟨400, "Current password is incorrect"⟩, store)
    else if comparePassword hash newPassword u then
      (⟨400, "New password must be different from current password"⟩, store)
    else
      let u₀ : User := { u with password := newPassword, refreshTokens := [] }
      let u' := saveUser hash "" u₀ true false
      (⟨200, "Password changed successfully. Please log in again."⟩,
        updateStore store u')

/-! ## Concrete fixtures for witnesses and counterexamples -/

/-- A concrete stand-in for the bcrypt hasher. -/
def exHash (s : String) : String := String.append s "#"

/-- A concrete active, unlocked account whose stored hash is
`exHash "Secret1A"`. -/
def exUser : User :=
  { id := 1, email := "ada@x.com", password := "Secret1A#", isActive := true,
    loginAttempts := 0, lockUntil := none, refreshTokens := [],
    passwordResetToken := none, passwordResetExpires := none,
    lastLogin := none, membershipId := some "ICAN/2024/001" }

/-- A one-account credential store. -/
def exStore : List User := [exUser]

/-! ## Claims -/

/-- C1, counterexample: the Request Gate does not reject every token of
the wrong kind.  An unexpired email-verification token for the existing
active, unlocked account — signed with the same `JWT_SECRET` as access
tokens and carrying a `userId` claim — is accepted by `authenticateToken`
as if it were an access token. -/
theorem c1_counterexample :
    authenticateToken exStore (some (generateEmailVerificationToken 1 0)) 5 =
      GateResult.ok (stripPassword exUser) := by
  decide

/-- C1, amended: each dedicated verification function
(`verifyRefreshToken`, `verifyPasswordResetToken`,
`verifyEmailVerificationToken`) rejects a token whose `type` claim does
not match its expected kind, even when signature-valid and unexpired;
the Request Gate performs no kind check of its own: it rejects a
password-reset token presented as an access token only because that
token carries no `userId` claim (the user lookup fails, 401), but it
accepts an unexpired email-verification token of an existing active,
unlocked account as an access token. -/
theorem c1_amended (t₁ t₂ t₃ : Jwt) (store : List User) (u : User) (now iat : Nat)
    (h₁ : t₁.type ≠ some "refresh")
    (h₂ : t₂.type ≠ some "password-reset")
    (h₃ : t₃.type ≠ some "email-verification")
    (hfind : findById store (some u.id) = some u)
    (hact : u.isActive = true)
    (hlock : isLocked u now = false)
    (hexp : now < iat + oneDayMs) :
    verifyFailed (verifyRefreshToken now t₁) = true ∧
    verifyFailed (verifyPasswordResetToken now t₂) = true ∧
    verifyFailed (verifyEmailVerificationToken now t₃) = true ∧
    GateResult.isErr (authenticateToken store (some (generatePasswordResetToken iat)) now)
      = true ∧
    authenticateToken store (some (generateEmailVerificationToken u.id iat)) now =
      GateResult.ok (stripPassword u) := by
  refine ⟨?_, ?_, ?_, ?_, ?_⟩
  · unfold verifyRefreshToken jwtVerify
    split
    · simp [verifyFailed]
    · rename_i d hd
      split at hd
      · exact absurd hd (by simp)
      · split at hd
        · exact absurd hd (by simp)
        · cases hd
          simp [h₁, verifyFailed]
  · unfold verifyPasswordResetToken jwtVerify
    split
    · simp [verifyFailed]
    · rename_i d hd
      split at hd
      · exact absurd hd (by simp)
      · split at hd
        · exact absurd hd (by simp)
        · cases hd
          simp [h₂, verifyFailed]
  · unfold verifyEmailVerificationToken jwtVerify
    split
    · simp [verifyFailed]
    · rename_i d hd
      split at hd
      · exact absurd hd (by simp)
      · split at hd
        · exact absurd hd (by simp)
        · cases hd
          simp [h₃, verifyFailed]
  · unfold authenticateToken jwtVerify
    simp only [generatePasswordResetToken]
    rw [if_neg (by simp)]
    by_cases hle : iat + oneHourMs ≤ now
    · rw [if_pos hle]
      rfl
    · rw [if_neg hle]
      simp [findById, GateResult.isErr]
  · unfold authenticateToken jwtVerify
    simp only [generateEmailVerificationToken]
    rw [if_neg (by simp), if_neg (by simpa using Nat.not_le.mpr hexp)]
    simp [hfind, hact, hlock]

/-- C1, witness for the amended theorem at concrete inputs: an access
token (kind claim absent) is rejected by all three dedicated verifiers,
the gate rejects a fresh password-reset token, and the gate accepts a
fresh email-verification token for the example account. -/
theorem c1_amended_witness :
    (generateToken 1 0).type ≠ some "refresh" ∧
    (generateToken 1 0).type ≠ some "password-reset" ∧
    (generateToken 1 0).type ≠ some "email-verification" ∧
    findById exStore (some exUser.id) = some exUser ∧
    exUser.isActive = true ∧
    isLocked exUser 5 = false ∧
    5 < 0 + oneDayMs ∧
    (verifyFailed (verifyRefreshToken 5 (generateToken 1 0)) = true ∧
     verifyFailed (verifyPasswordResetToken 5 (generateToken 1 0)) = true ∧
     verifyFailed (verifyEmailVerificationToken 5 (generateToken 1 0)) = true ∧
     GateResult.isErr (authenticateToken exStore (some (generatePasswordResetToken 0)) 5)
       = true ∧
     authenticateToken exStore (some (generateEmailVerificationToken exUser.id 0)) 5 =
       GateResult.ok (stripPassword exUser)) :=
  ⟨by decide, by decide, by decide, by decide, by decide, by decide, by decide,
   c1_amended (generateToken 1 0) (generateToken 1 0) (generateToken 1 0)
     exStore exUser 5 0 (by decide) (by decide) (by decide) (by decide)
     (by decide) (by decide) (by decide)⟩

/-- The example account with 4 failed attempts recorded. -/
def exUser4 : User := { exUser with loginAttempts := 4 }

/-- A store holding only `exUser4`. -/
def exStore4 : List User := [exUser4]

/-- The example account locked until time 5000. -/
def exLockedUser : User := { exUser with lockUntil := some 5000 }

/-- A store holding only `exLockedUser`. -/
def exStoreLocked : List User := [exLockedUser]

/-- C2: for an active account that is not locked (no `lockUntil`), the
failed login attempt that brings the counter from 4 to 5 answers the
generic invalid-credentials error and persists the account with
`loginAttempts = 5` and `lockUntil = now + 2h`; and any login attempt
against an account whose `lockUntil` lies in the future fails with
HTTP 423 regardless of the supplied password. -/
theorem c2_lockout (hash : String → String) (store store₂ : List User)
    (u u₂ : User) (email email₂ pw pw₂ : String) (now now₂ L : Nat)
    (hfind : findOneEmail store email = some u)
    (hact : u.isActive = true)
    (hnolock : u.lockUntil = none)
    (h4 : u.loginAttempts = 4)
    (hpw : comparePassword hash pw u = false)
    (hfind₂ : findOneEmail store₂ email₂ = some u₂)
    (hL : u₂.lockUntil = some L)
    (hnow : now₂ < L) :
    (login hash store email pw now).resp = ⟨401, "Invalid credentials"⟩ ∧
    (login hash store email pw now).store =
      updateStore store
        { u with loginAttempts := 5, lockUntil := some (now + twoHoursMs) } ∧
    (login hash store₂ email₂ pw₂ now₂).resp =
      ⟨423, "Account is temporarily locked due to too many failed login attempts"⟩ := by
  have hlock0 : isLocked u now = false := by simp [isLocked, hnolock]
  have hexp0 : lockExpired u now = false := by simp [lockExpired, hnolock]
  have hlock2 : isLocked u₂ now₂ = true := by simp [isLocked, hL, hnow]
  refine ⟨?_, ?_, ?_⟩
  · simp [login, hfind, hlock0, hact, hpw]
  · simp [login, hfind, hlock0, hact, hpw, incLoginAttempts, hexp0, h4]
  · simp [login, hfind₂, hlock2]

/-- C2, witness: the 5th failed attempt against the 4-attempt account
locks it for two hours, and a login with the correct password against
the locked account at time 10 (lock until 5000) fails with 423. -/
theorem c2_lockout_witness :
    findOneEmail exStore4 "ada@x.com" = some exUser4 ∧
    exUser4.isActive = true ∧
    exUser4.lockUntil = none ∧
    exUser4.loginAttempts = 4 ∧
    comparePassword exHash "wrong" exUser4 = false ∧
    findOneEmail exStoreLocked "ada@x.com" = some exLockedUser ∧
    exLockedUser.lockUntil = some 5000 ∧
    10 < 5000 ∧
    ((login exHash exStore4 "ada@x.com" "wrong" 1000).resp =
      ⟨401, "Invalid credentials"⟩ ∧
     (login exHash exStore4 "ada@x.com" "wrong" 1000).store =
      updateStore exStore4
        { exUser4 with loginAttempts := 5, lockUntil := some (1000 + twoHoursMs) } ∧
     (login exHash exStoreLocked "ada@x.com" "Secret1A" 10).resp =
      ⟨423, "Account is temporarily locked due to too many failed login attempts"⟩) :=
  ⟨by decide, by decide, by decide, by decide, by decide, by decide, by decide,
   by decide,
   c2_lockout exHash exStore4 exStoreLocked exUser4 exLockedUser
     "ada@x.com" "ada@x.com" "wrong" "Secret1A" 1000 10 5000
     (by decide) (by decide) (by decide) (by decide) (by decide) (by decide)
     (by decide) (by decide)⟩

/-- C3: the forgot-password handler does **not** return the same body
for unknown and known emails — the code contradicts its own
`Don't reveal if email exists or not` comment.  At the concrete store
holding only `ada@x.com`, the unknown-email branch answers
`If an account with that email exists, a password reset link has been
sent` while the known-email branch answers `Password reset instructions
sent to your email`, so the two response bodies differ. -/
theorem c3_divergence :
    (forgotPassword exStore "unknown@x.com" 0 false).fst.message =
      "If an account with that email exists, a password reset link has been sent" ∧
    (forgotPassword exStore "ada@x.com" 0 false).fst.message =
      "Password reset instructions sent to your email" ∧
    (forgotPassword exStore "unknown@x.com" 0 false).fst ≠
      (forgotPassword exStore "ada@x.com" 0 false).fst := by
  refine ⟨by decide, by decide, by decide⟩

/-- C4: a login that fails because no account matches the email and a
login that fails because the password does not verify against an
existing unlocked, active account produce the same response — status
401 with the message `Invalid credentials` — so the two failure causes
are indistinguishable to the caller. -/
theorem c4_indistinguishable (hash : String → String)
    (s₁ s₂ : List User) (e₁ e₂ p₁ p₂ : String) (n₁ n₂ : Nat) (u : User)
    (h₁ : findOneEmail s₁ e₁ = none)
    (h₂ : findOneEmail s₂ e₂ = some u)
    (hlock : isLocked u n₂ = false)
    (hact : u.isActive = true)
    (hpw : comparePassword hash p₂ u = false) :
    (login hash s₁ e₁ p₁ n₁).resp = (login hash s₂ e₂ p₂ n₂).resp ∧
    (login hash s₁ e₁ p₁ n₁).resp = ⟨401, "Invalid credentials"⟩ := by
  constructor <;> simp [login, h₁, h₂, hlock, hact, hpw]

/-- C4, witness: at the concrete store, an unknown email and a wrong
password for `ada@x.com` yield the identical 401 invalid-credentials
response. -/
theorem c4_indistinguishable_witness :
    findOneEmail exStore "unknown@x.com" = none ∧
    findOneEmail exStore "ada@x.com" = some exUser ∧
    isLocked exUser 7 = false ∧
    exUser.isActive = true ∧
    comparePassword exHash "wrong" exUser = false ∧
    ((login exHash exStore "unknown@x.com" "whatever" 3).resp =
      (login exHash exStore "ada@x.com" "wrong" 7).resp ∧
     (login exHash exStore "unknown@x.com" "whatever" 3).resp =
      ⟨401, "Invalid credentials"⟩) :=
  ⟨by decide, by decide, by decide, by decide, by decide,
   c4_indistinguishable exHash exStore exStore "unknown@x.com" "ada@x.com"
     "whatever" "wrong" 3 7 exUser (by decide) (by decide) (by decide)
     (by decide) (by decide)⟩

/-! ## Store helper lemmas -/

/-- A user returned by `findResetUser` is in the store. -/
theorem findResetUser_mem (store : List User) (t : Jwt) (now : Nat) (u : User)
    (h : findResetUser store t now = some u) : u ∈ store := by
  unfold findResetUser at h
  exact List.mem_of_find?_eq_some h

/-- A user returned by `findById` is in the store and has the looked-up id. -/
theorem findById_spec (store : List User) (i : Nat) (u : User)
    (h : findById store (some i) = some u) : u ∈ store ∧ u.id = i := by
  unfold findById at h
  refine ⟨List.mem_of_find?_eq_some h, ?_⟩
  have := List.find?_some h
  simpa using this

/-- After persisting `u'`, looking up `u'.id` returns `u'`, provided some
stored document had that id. -/
theorem findById_updateStore (store : List User) (u' v : User)
    (hv : v ∈ store) (hid : v.id = u'.id) :
    findById (updateStore store u') (some v.id) = some u' := by
  rw [hid]
  unfold findById updateStore
  show List.find? (fun u => u.id == u'.id)
      (store.map (fun v => if v.id == u'.id then u' else v)) = some u'
  induction store with
  | nil => cases hv
  | cons a l ih =>
    rw [List.map_cons]
    cases hb : a.id == u'.id with
    | true =>
      simp [List.find?]
    | false =>
      rw [if_neg (by simp)]
      have hstep : List.find? (fun u => u.id == u'.id)
          (a :: List.map (fun v => if v.id == u'.id then u' else v) l) =
          List.find? (fun u => u.id == u'.id)
          (List.map (fun v => if v.id == u'.id then u' else v) l) := by
        simp [List.find?, hb]
      rw [hstep]
      rcases List.mem_cons.mp hv with h | h
      · rw [← h] at hb
        simp [hid] at hb
      · exact ih h

/-- A successfully verified refresh token decodes to itself. -/
theorem verifyRefreshToken_ok (now : Nat) (t d : Jwt)
    (h : verifyRefreshToken now t = .ok d) : d = t := by
  unfold verifyRefreshToken jwtVerify at h
  by_cases h1 : t.secret ≠ Secret.jwtRefreshSecret
  · simp [h1] at h
  · rw [if_neg h1] at h
    by_cases h2 : t.exp ≤ now
    · simp [h2] at h
    · rw [if_neg h2] at h
      by_cases h3 : t.type = some "refresh"
      · simp [h3] at h
        exact h.symm
      · simp [h3] at h

/-- The refresh operation never succeeds when the subject account's
refresh-token set is empty. -/
theorem refresh_emptied (store : List User) (u' : User) (rt : Jwt) (now : Nat)
    (hfind : findById store rt.userId = some u')
    (hempty : u'.refreshTokens = []) :
    (refresh store (some rt) now).fst.status ≠ 200 := by
  cases hvr : verifyRefreshToken now rt with
  | error e =>
    simp only [refresh, hvr]
    cases e <;> simp [tokenErrResp]
  | ok d =>
    have hd := verifyRefreshToken_ok now rt d hvr
    subst hd
    simp only [refresh, hvr, hfind]
    simp [hempty]

/-- Computation of a successful reset-password call: 200 response and
the found account persisted with the new (rehashed) password, cleared
reset token and expiry, and an empty refresh-token set. -/
theorem resetPassword_out (hash : String → String) (store : List User)
    (t : Jwt) (newPw : String) (now : Nat) (u : User)
    (hv : verifyFailed (verifyPasswordResetToken now t) = false)
    (hfind : findResetUser store t now = some u) :
    resetPassword hash store t newPw now =
      (⟨200, "Password reset successfully"⟩,
       updateStore store
         (saveUser hash ""
           { u with password := newPw, passwordResetToken := none,
                    passwordResetExpires := none, refreshTokens := [] }
           true false)) := by
  simp [resetPassword, hv, hfind]

/-- Computation of a successful change-password call: 200 response and
the account persisted with the new (rehashed) password and an empty
refresh-token set. -/
theorem changePassword_out (hash : String → String) (store : List User)
    (uid : Nat) (cur new : String) (u : User)
    (hfind : findById store (some uid) = some u)
    (hcur : comparePassword hash cur u = true)
    (hnew : comparePassword hash new u = false) :
    changePassword hash store uid cur new =
      (⟨200, "Password changed successfully. Please log in again."⟩,
       updateStore store
         (saveUser hash "" { u with password := new, refreshTokens := [] }
           true false)) := by
  simp [changePassword, hfind, hcur, hnew]

/-- C5: a successful reset-password and a successful authenticated
change-password both persist the account with an empty refresh-token
set, so afterwards no refresh call whose token is bound to that account
can succeed. -/
theorem c5_password_change_clears_refresh (hash : String → String)
    (store₁ store₂ : List User) (t rt₁ rt₂ : Jwt) (newPw cur new : String)
    (now₁ nowr₁ nowr₂ : Nat) (u₁ u₂ : User) (uid : Nat)
    (hv₁ : verifyFailed (verifyPasswordResetToken now₁ t) = false)
    (hfind₁ : findResetUser store₁ t now₁ = some u₁)
    (hrt₁ : rt₁.userId = some u₁.id)
    (hfind₂ : findById store₂ (some uid) = some u₂)
    (hcur : comparePassword hash cur u₂ = true)
    (hnew : comparePassword hash new u₂ = false)
    (hrt₂ : rt₂.userId = some u₂.id) :
    (refresh (resetPassword hash store₁ t newPw now₁).snd
      (some rt₁) nowr₁).fst.status ≠ 200 ∧
    (refresh (changePassword hash store₂ uid cur new).snd
      (some rt₂) nowr₂).fst.status ≠ 200 := by
  constructor
  · rw [resetPassword_out hash store₁ t newPw now₁ u₁ hv₁ hfind₁]
    apply refresh_emptied
    · rw [hrt₁]
      exact findById_updateStore store₁ _ u₁
        (findResetUser_mem store₁ t now₁ u₁ hfind₁) (by simp [saveUser])
    · simp [saveUser]
  · rw [changePassword_out hash store₂ uid cur new u₂ hfind₂ hcur hnew]
    apply refresh_emptied
    · rw [hrt₂]
      exact findById_updateStore store₂ _ u₂
        (findById_spec store₂ uid u₂ hfind₂).1 (by simp [saveUser])
    · simp [saveUser]

/-- A refresh token for the example account, issued at time 0. -/
def exRt : Jwt := generateRefreshToken 1 0

/-- A password-reset token issued at time 0 (expires at 3600000). -/
def exResetTok : Jwt := generatePasswordResetToken 0

/-- The example account holding the reset token and one refresh token. -/
def exResetUser : User :=
  { exUser with passwordResetToken := some exResetTok,
                passwordResetExpires := some 3600000,
                refreshTokens := [⟨exRt, 0, 604800000⟩] }

/-- A store holding only `exResetUser`. -/
def exResetStore : List User := [exResetUser]

/-- C5, witness: after a concrete reset-password (and, separately, a
concrete change-password), refreshing with the previously issued
refresh token no longer succeeds. -/
theorem c5_password_change_clears_refresh_witness :
    verifyFailed (verifyPasswordResetToken 10 exResetTok) = false ∧
    findResetUser exResetStore exResetTok 10 = some exResetUser ∧
    exRt.userId = some exResetUser.id ∧
    findById exStore (some 1) = some exUser ∧
    comparePassword exHash "Secret1A" exUser = true ∧
    comparePassword exHash "NewPass1" exUser = false ∧
    exRt.userId = some exUser.id ∧
    ((refresh (resetPassword exHash exResetStore exResetTok "NewPass1" 10).snd
       (some exRt) 20).fst.status ≠ 200 ∧
     (refresh (changePassword exHash exStore 1 "Secret1A" "NewPass1").snd
       (some exRt) 20).fst.status ≠ 200) :=
  ⟨by decide, by decide, by decide, by decide, by decide, by decide, by decide,
   c5_password_change_clears_refresh exHash exResetStore exStore
     exResetTok exRt exRt "NewPass1" "Secret1A" "NewPass1" 10 20 20
     exResetUser exUser 1 (by decide) (by decide) (by decide) (by decide)
     (by decide) (by decide) (by decide)⟩

/-- After persisting a version of the account whose reset token is
cleared, no account matches the reset-token lookup, provided the
consumed token was stored by no other account. -/
theorem findResetUser_after_clear (store : List User) (t : Jwt) (now₂ : Nat)
    (X : User) (uId : Nat) (hXid : X.id = uId)
    (hXtok : X.passwordResetToken = none)
    (huniq : ∀ v ∈ store, v.passwordResetToken = some t → v.id = uId) :
    findResetUser (updateStore store X) t now₂ = none := by
  unfold findResetUser updateStore
  rw [List.find?_eq_none]
  intro v hvmem hp
  obtain ⟨w, hw, hfw⟩ := List.mem_map.mp hvmem
  by_cases hwid : (w.id == X.id) = true
  · rw [if_pos hwid] at hfw
    subst hfw
    rw [hXtok] at hp
    simp at hp
  · rw [if_neg hwid] at hfw
    subst hfw
    have h2 : w.passwordResetToken = some t := by
      rw [Bool.and_eq_true] at hp
      simpa using hp.1
    have hwu := huniq w hw h2
    rw [hwu, ← hXid] at hwid
    simp at hwid

/-- C6: a successful reset-password call (status 200) clears the stored
reset token, so — when no other account happens to store the same token
value — a second reset-password call with the same token fails with 400
`Invalid or expired reset token`. -/
theorem c6_reset_token_single_use (hash : String → String) (store : List User)
    (t : Jwt) (newPw newPw₂ : String) (now now₂ : Nat) (u : User)
    (hv : verifyFailed (verifyPasswordResetToken now t) = false)
    (hfind : findResetUser store t now = some u)
    (huniq : ∀ v ∈ store, v.passwordResetToken = some t → v.id = u.id) :
    (resetPassword hash store t newPw now).fst.status = 200 ∧
    (resetPassword hash (resetPassword hash store t newPw now).snd t newPw₂ now₂).fst
      = ⟨400, "Invalid or expired reset token"⟩ := by
  have hout := resetPassword_out hash store t newPw now u hv hfind
  have hsnd : (resetPassword hash store t newPw now).snd =
      updateStore store
        (saveUser hash ""
          { u with password := newPw, passwordResetToken := none,
                   passwordResetExpires := none, refreshTokens := [] }
          true false) := by
    rw [hout]
  refine ⟨by rw [hout], ?_⟩
  rw [hsnd]
  by_cases hv₂ : verifyFailed (verifyPasswordResetToken now₂ t) = true
  · simp [resetPassword, hv₂]
  · have hnone := findResetUser_after_clear store t now₂
      (saveUser hash ""
        { u with password := newPw, passwordResetToken := none,
                 passwordResetExpires := none, refreshTokens := [] }
        true false)
      u.id (by simp [saveUser]) (by simp [saveUser]) huniq
    simp [resetPassword, hv₂, hnone]

/-- C6, witness: at the concrete store, the first reset with the stored
token succeeds and the immediate second reset with the same token is
rejected with 400. -/
theorem c6_reset_token_single_use_witness :
    verifyFailed (verifyPasswordResetToken 10 exResetTok) = false ∧
    findResetUser exResetStore exResetTok 10 = some exResetUser ∧
    (∀ v ∈ exResetStore, v.passwordResetToken = some exResetTok →
      v.id = exResetUser.id) ∧
    ((resetPassword exHash exResetStore exResetTok "NewPass1" 10).fst.status = 200 ∧
     (resetPassword exHash (resetPassword exHash exResetStore exResetTok "NewPass1" 10).snd
        exResetTok "NewPass2" 20).fst = ⟨400, "Invalid or expired reset token"⟩) :=
  ⟨by decide, by decide, by decide,
   c6_reset_token_single_use exHash exResetStore exResetTok "NewPass1" "NewPass2"
     10 20 exResetUser (by decide) (by decide) (by decide)⟩

/-- A user returned by the logout lookup is in the store. -/
theorem findByRefreshToken_mem (store : List User) (t : Jwt) (u : User)
    (h : findByRefreshToken store t = some u) : u ∈ store := by
  unfold findByRefreshToken at h
  exact List.mem_of_find?_eq_some h

/-- Filtering an exact token value out of a refresh-token list leaves no
entry equal to it. -/
theorem any_filter_not (l : List RefreshEntry) (t : Jwt) :
    ((l.filter fun e => ¬(e.token == t)).any fun e => e.token == t) = false := by
  by_contra h
  rw [Bool.not_eq_false, List.any_eq_true] at h
  obtain ⟨e, he, hp⟩ := h
  rw [List.mem_filter] at he
  have := he.2
  simp at this
  exact absurd (by simpa using hp) this

/-- C7: a cryptographically valid, unexpired refresh token whose exact
value is not in the subject account's refresh-token set is rejected by
the refresh operation with 401 `Invalid refresh token`; in particular,
after logout removes a token from the account that held it, refreshing
with that token is rejected with the same 401. -/
theorem c7_refresh_requires_membership (store store₂ : List User)
    (u u₂ : User) (rt rt₂ : Jwt) (now now₂ : Nat)
    (hv : verifyRefreshToken now rt = .ok rt)
    (hfind : findById store rt.userId = some u)
    (hnot : (u.refreshTokens.any fun e => e.token == rt) = false)
    (hlu : findByRefreshToken store₂ rt₂ = some u₂)
    (hid₂ : rt₂.userId = some u₂.id)
    (hv₂ : verifyRefreshToken now₂ rt₂ = .ok rt₂) :
    (refresh store (some rt) now).fst = ⟨401, "Invalid refresh token"⟩ ∧
    (refresh (logout store₂ (some rt₂)).snd (some rt₂) now₂).fst
      = ⟨401, "Invalid refresh token"⟩ := by
  constructor
  · simp [refresh, hv, hfind, hnot]
  · have hsnd : (logout store₂ (some rt₂)).snd =
        updateStore store₂
          { u₂ with refreshTokens :=
              u₂.refreshTokens.filter fun e => ¬(e.token == rt₂) } := by
      simp [logout, hlu]
    rw [hsnd]
    have hfound := findById_updateStore store₂
      { u₂ with refreshTokens :=
          u₂.refreshTokens.filter fun e => ¬(e.token == rt₂) }
      u₂ (findByRefreshToken_mem store₂ rt₂ u₂ hlu) rfl
    have hrw : findById
        (updateStore store₂
          { u₂ with refreshTokens :=
              u₂.refreshTokens.filter fun e => ¬(e.token == rt₂) })
        rt₂.userId =
        some { u₂ with refreshTokens :=
            u₂.refreshTokens.filter fun e => ¬(e.token == rt₂) } := by
      rw [hid₂]
      exact hfound
    simp only [refresh, hv₂, hrw, any_filter_not]
    simp

/-- C7, witness: the example account with an empty refresh-token set
rejects the otherwise valid `exRt` with 401; and after logging `exRt`
out of the account that held it, refreshing with it is rejected with
401. -/
theorem c7_refresh_requires_membership_witness :
    verifyRefreshToken 20 exRt = .ok exRt ∧
    findById exStore exRt.userId = some exUser ∧
    (exUser.refreshTokens.any fun e => e.token == exRt) = false ∧
    findByRefreshToken exResetStore exRt = some exResetUser ∧
    exRt.userId = some exResetUser.id ∧
    ((refresh exStore (some exRt) 20).fst = ⟨401, "Invalid refresh token"⟩ ∧
     (refresh (logout exResetStore (some exRt)).snd (some exRt) 20).fst
       = ⟨401, "Invalid refresh token"⟩) :=
  ⟨by rfl, by decide, by decide, by decide, by decide,
   c7_refresh_requires_membership exStore exResetStore exUser exResetUser
     exRt exRt 20 20 (by rfl) (by decide) (by decide) (by decide)
     (by decide) (by rfl)⟩

/-- The example account whose lock (until time 5) has already expired,
with 3 failed attempts recorded. -/
def exExpiredUser : User := { exUser with lockUntil := some 5, loginAttempts := 3 }

/-- A store holding only `exExpiredUser`. -/
def exExpiredStore : List User := [exExpiredUser]

/-- C8: when an account's `lockUntil` is in the past, the next failed
login attempt clears the lock and sets the failed-attempt counter to
exactly 1 — both at the level of `incLoginAttempts` and of the login
handler's persisted store. -/
theorem c8_expired_lock_restarts_counter (hash : String → String)
    (store : List User) (u : User) (email pw : String) (now L : Nat)
    (hL : u.lockUntil = some L) (hpast : L < now)
    (hfind : findOneEmail store email = some u)
    (hact : u.isActive = true)
    (hpw : comparePassword hash pw u = false) :
    incLoginAttempts u now = { u with lockUntil := none, loginAttempts := 1 } ∧
    (login hash store email pw now).store =
      updateStore store { u with lockUntil := none, loginAttempts := 1 } := by
  have hexp : lockExpired u now = true := by simp [lockExpired, hL, hpast]
  have hlock : isLocked u now = false := by
    simp [isLocked, hL]
    omega
  have hinc : incLoginAttempts u now =
      { u with lockUntil := none, loginAttempts := 1 } := by
    simp [incLoginAttempts, hexp]
  refine ⟨hinc, ?_⟩
  simp [login, hfind, hlock, hact, hpw, hinc]

/-- C8, witness: at time 100, a wrong-password attempt against the
account locked until time 5 with 3 recorded attempts persists it
unlocked with exactly 1 attempt. -/
theorem c8_expired_lock_restarts_counter_witness :
    exExpiredUser.lockUntil = some 5 ∧
    5 < 100 ∧
    findOneEmail exExpiredStore "ada@x.com" = some exExpiredUser ∧
    exExpiredUser.isActive = true ∧
    comparePassword exHash "wrong" exExpiredUser = false ∧
    (incLoginAttempts exExpiredUser 100 =
      { exExpiredUser with lockUntil := none, loginAttempts := 1 } ∧
     (login exHash exExpiredStore "ada@x.com" "wrong" 100).store =
      updateStore exExpiredStore
        { exExpiredUser with lockUntil := none, loginAttempts := 1 }) :=
  ⟨by decide, by decide, by decide, by decide, by decide,
   c8_expired_lock_restarts_counter exHash exExpiredStore exExpiredUser
     "ada@x.com" "wrong" 100 5 (by decide) (by decide) (by decide) (by decide)
     (by decide)⟩

/-- C9: the pre-save hashing hook rehashes exactly when the password
path was modified — saving without touching the password leaves the
stored hash unchanged (even when the other pre-save hook assigns a
membership id), and saving with it modified replaces it by the hash of
the new plaintext. -/
theorem c9_save_rehash_only_on_modify (hash : String → String) (genId : String)
    (u : User) (isNew : Bool) :
    (saveUser hash genId u false isNew).password = u.password ∧
    (saveUser hash genId u true isNew).password = hash u.password := by
  constructor <;> simp [saveUser, apply_ite]

/-- C10: a successful change-password answers 200 and persists the
account with an empty refresh-token set but with the stored
password-reset token and its expiry untouched, so a reset token issued
beforehand still resets the password successfully afterwards (while
unexpired). -/
theorem c10_change_password_frame (hash : String → String) (store : List User)
    (uid : Nat) (cur new newPw₂ : String) (u : User) (t : Jwt) (E now₂ : Nat)
    (hfind : findById store (some uid) = some u)
    (hcur : comparePassword hash cur u = true)
    (hnew : comparePassword hash new u = false)
    (htok : u.passwordResetToken = some t)
    (hexp : u.passwordResetExpires = some E)
    (hfut : now₂ < E)
    (hv₂ : verifyFailed (verifyPasswordResetToken now₂ t) = false) :
    (changePassword hash store uid cur new).fst.status = 200 ∧
    findById (changePassword hash store uid cur new).snd (some u.id) =
      some (saveUser hash "" { u with password := new, refreshTokens := [] }
        true false) ∧
    (saveUser hash "" { u with password := new, refreshTokens := [] }
      true false).passwordResetToken = some t ∧
    (saveUser hash "" { u with password := new, refreshTokens := [] }
      true false).passwordResetExpires = some E ∧
    (saveUser hash "" { u with password := new, refreshTokens := [] }
      true false).refreshTokens = ([] : List RefreshEntry) ∧
    (resetPassword hash (changePassword hash store uid cur new).snd
      t newPw₂ now₂).fst.status = 200 := by
  have hout := changePassword_out hash store uid cur new u hfind hcur hnew
  obtain ⟨hmem, hid0⟩ := findById_spec store uid u hfind
  have hids : u.id =
      (saveUser hash "" { u with password := new, refreshTokens := [] }
        true false).id := by
    simp [saveUser]
  have hfound : findById (changePassword hash store uid cur new).snd (some u.id) =
      some (saveUser hash "" { u with password := new, refreshTokens := [] }
        true false) := by
    rw [hout]
    exact findById_updateStore store _ u hmem hids
  have hmem' : (saveUser hash "" { u with password := new, refreshTokens := [] }
      true false) ∈ (changePassword hash store uid cur new).snd := by
    rw [hout]
    exact List.mem_map.mpr ⟨u, hmem, by rw [if_pos (by rw [← hids]; simp)]⟩
  have hsome : (findResetUser (changePassword hash store uid cur new).snd
      t now₂).isSome := by
    unfold findResetUser
    rw [List.find?_isSome]
    refine ⟨_, hmem', ?_⟩
    simp [saveUser, htok, hexp, hfut]
  obtain ⟨w, hw⟩ := Option.isSome_iff_exists.mp hsome
  refine ⟨by rw [hout], hfound, by simp [saveUser, htok], by simp [saveUser, hexp],
    by simp [saveUser], ?_⟩
  rw [resetPassword_out hash _ t newPw₂ now₂ w hv₂ hw]

/-- C10, witness: after a concrete successful change-password for the
account holding a stored reset token, the token and expiry survive
unchanged, the refresh-token set is emptied, and a subsequent
reset-password with the stored token succeeds. -/
theorem c10_change_password_frame_witness :
    findById exResetStore (some 1) = some exResetUser ∧
    comparePassword exHash "Secret1A" exResetUser = true ∧
    comparePassword exHash "NewPass1" exResetUser = false ∧
    exResetUser.passwordResetToken = some exResetTok ∧
    exResetUser.passwordResetExpires = some 3600000 ∧
    20 < 3600000 ∧
    verifyFailed (verifyPasswordResetToken 20 exResetTok) = false ∧
    ((changePassword exHash exResetStore 1 "Secret1A" "NewPass1").fst.status = 200 ∧
     findById (changePassword exHash exResetStore 1 "Secret1A" "NewPass1").snd
       (some exResetUser.id) =
       some (saveUser exHash ""
         { exResetUser with password := "NewPass1", refreshTokens := [] }
         true false) ∧
     (saveUser exHash ""
       { exResetUser with password := "NewPass1", refreshTokens := [] }
       true false).passwordResetToken = some exResetTok ∧
     (saveUser exHash ""
       { exResetUser with password := "NewPass1", refreshTokens := [] }
       true false).passwordResetExpires = some 3600000 ∧
     (saveUser exHash ""
       { exResetUser with password := "NewPass1", refreshTokens := [] }
       true false).refreshTokens = ([] : List RefreshEntry) ∧
     (resetPassword exHash
       (changePassword exHash exResetStore 1 "Secret1A" "NewPass1").snd
       exResetTok "NewPass2" 20).fst.status = 200) :=
  ⟨by decide, by decide, by decide, by decide, by decide, by decide, by decide,
   c10_change_password_frame exHash exResetStore 1 "Secret1A" "NewPass1"
     "NewPass2" exResetUser exResetTok 3600000 20 (by decide) (by decide)
     (by decide) (by decide) (by decide) (by decide) (by decide)⟩

end Ican
